import Mathlib

/-!
Shallow embedding of `src/librustc_data_structures/profiling.rs` (the rustc
self-profiling framework) and proofs about it.

Modelling conventions:
* Machine integers (`u32`, `u64`) are `Nat` with explicit `% 2 ^ 32` where the
  source truncates.
* The external `measureme` sink is modelled as an append-only log of the calls
  this module issues to it (`SinkCall`), together with a fresh-id counter for
  string allocation.  The source only ever appends to the sink.
* Interior mutability (the `Arc<SelfProfiler>` shared across threads, the
  `RwLock` around the string cache) becomes explicit state passing; the
  double-checked read-then-write lookup of `get_or_alloc_cached_string`
  collapses sequentially to a single lookup.
* `.unwrap()` on the optional profiler handle in `exec`'s cold path is a
  possible panic, so `exec` returns an `Option`, with `none` modelling the
  panic.
* The ambient current thread id (a `u64`) and the ambient clock instant are
  passed as explicit `Nat` parameters.
-/

namespace Profiling

/-- Bit mask of enabled event categories (`bitflags! struct EventFilter: u32`). -/
abbrev EventFilter := Nat

namespace EventFilter

/-- `const GENERIC_ACTIVITIES = 1 << 0`. -/
def GENERIC_ACTIVITIES : EventFilter := 1 <<< 0

/-- `const QUERY_PROVIDERS = 1 << 1`. -/
def QUERY_PROVIDERS : EventFilter := 1 <<< 1

/-- `const QUERY_CACHE_HITS = 1 << 2`. -/
def QUERY_CACHE_HITS : EventFilter := 1 <<< 2

/-- `const QUERY_BLOCKED = 1 << 3`. -/
def QUERY_BLOCKED : EventFilter := 1 <<< 3

/-- `const INCR_CACHE_LOADS = 1 << 4`. -/
def INCR_CACHE_LOADS : EventFilter := 1 <<< 4

/-- `const QUERY_KEYS = 1 << 5`. -/
def QUERY_KEYS : EventFilter := 1 <<< 5

/-- `const DEFAULT = GENERIC_ACTIVITIES | QUERY_PROVIDERS | QUERY_BLOCKED | INCR_CACHE_LOADS`. -/
def DEFAULT : EventFilter :=
  GENERIC_ACTIVITIES ||| QUERY_PROVIDERS ||| QUERY_BLOCKED ||| INCR_CACHE_LOADS

/-- `const NONE = 0`. -/
def NONE : EventFilter := 0

/-- `const ALL = !NONE.bits` as a `u32`: all 32 bits set. -/
def ALL : EventFilter := 2 ^ 32 - 1

/-- `EventFilter::empty()`. -/
def empty : EventFilter := 0

/-- bitflags `contains`: `(self.bits & other.bits) == other.bits`. -/
def contains (m f : EventFilter) : Bool := m &&& f == f

end EventFilter

/-- `EVENT_FILTERS_BY_NAME`: the name → flags lookup table. -/
def EVENT_FILTERS_BY_NAME : List (String × EventFilter) :=
  [("none", EventFilter.NONE),
   ("all", EventFilter.ALL),
   ("generic-activity", EventFilter.GENERIC_ACTIVITIES),
   ("query-provider", EventFilter.QUERY_PROVIDERS),
   ("query-cache-hit", EventFilter.QUERY_CACHE_HITS),
   ("query-blocked", EventFilter.QUERY_BLOCKED),
   ("incr-cache-load", EventFilter.INCR_CACHE_LOADS),
   ("query-keys", EventFilter.QUERY_KEYS)]

/-- `fn thread_id_to_u32(tid: ThreadId) -> u32`: the thread id's `u64` value
truncated with `as u32`, i.e. reduced modulo `2 ^ 32`. -/
def thread_id_to_u32 (tid : Nat) : Nat := tid % 2 ^ 32

/-- A `measureme` `StringId`.  The sink namespaces virtual ids apart from
concrete ones, which the two constructors reflect. -/
inductive StringId where
  | concrete (n : Nat)
  | virt (n : Nat)
deriving DecidableEq, Repr

/-- `StringId::new_virtual(n)`: a virtual string id whose numeric value is `n`. -/
def StringId.new_virtual (n : Nat) : StringId := StringId.virt n

/-- A `measureme` `EventId`: either `INVALID`, built from a concrete label
(`EventId::from_label`), or built from a virtual id (`EventId::from_virtual`). -/
inductive EventId where
  | invalid
  | fromLabel (s : StringId)
  | fromVirtual (s : StringId)
deriving DecidableEq, Repr

/-- One call issued to the external `measureme` sink. -/
inductive SinkCall where
  | allocString (s : String) (result : StringId)
  | startInterval (event_kind : StringId) (event_id : EventId) (thread_id : Nat)
  | finishInterval (event_kind : StringId) (event_id : EventId) (thread_id : Nat)
  | recordInstant (event_kind : StringId) (event_id : EventId) (thread_id : Nat)
deriving DecidableEq, Repr

/-- The external `measureme::Profiler` sink: an append-only call log plus a
fresh-id counter for `alloc_string`. -/
structure Sink where
  nextStringId : Nat
  calls : List SinkCall
deriving DecidableEq, Repr

/-- A freshly opened sink (`Profiler::new`). -/
def Sink.new : Sink := { nextStringId := 0, calls := [] }

/-- Append one call to the sink's log. -/
def Sink.record (sink : Sink) (c : SinkCall) : Sink :=
  { sink with calls := sink.calls ++ [c] }

/-- `Profiler::alloc_string`: allocates a fresh concrete `StringId`. -/
def Sink.alloc_string (sink : Sink) (s : String) : StringId × Sink :=
  let id := StringId.concrete sink.nextStringId
  (id, { nextStringId := sink.nextStringId + 1,
         calls := sink.calls ++ [SinkCall.allocString s id] })

/-- `pub struct SelfProfiler`.  `string_cache` is the `RwLock<FxHashMap<...>>`
modelled as an association list (newest entry first). -/
structure SelfProfiler where
  profiler : Sink
  event_filter_mask : EventFilter
  string_cache : List (String × StringId)
  query_event_kind : StringId
  generic_activity_event_kind : StringId
  incremental_load_result_event_kind : StringId
  query_blocked_event_kind : StringId
  query_cache_hit_event_kind : StringId
deriving DecidableEq, Repr

/-- One iteration of the filter-list loop of `SelfProfiler::new`: OR a
recognized name's mask into the accumulator, or append an unrecognized name to
`unknown_events`. -/
def filterStep (acc : EventFilter × List String) (item : String) :
    EventFilter × List String :=
  match EVENT_FILTERS_BY_NAME.find? (fun p => p.1 == item) with
  | some (_, mask) => (acc.1 ||| mask, acc.2)
  | none => (acc.1, acc.2 ++ [item])

/-- The filter-list loop of `SelfProfiler::new` (lines 377–387): OR recognized
names into the mask, collect unrecognized ones in `unknown_events`. -/
def maskAndUnknown (event_filters : List String) : EventFilter × List String :=
  event_filters.foldl filterStep (EventFilter.empty, [])

/-- Remove consecutive duplicates (`Vec::dedup`). -/
def dedupAdjacent : List String → List String
  | [] => []
  | [a] => [a]
  | a :: b :: rest =>
    if a = b then dedupAdjacent (b :: rest) else a :: dedupAdjacent (b :: rest)

/-- `unknown_events.sort()`: sort ascending in the string order. -/
def sortStrings (l : List String) : List String := List.insertionSort (· ≤ ·) l

/-- `SelfProfiler::new` (the part after the elided directory/file IO, which
always succeeds here): allocate the five event-kind strings on a fresh sink,
compute the event-filter mask from the optional filter list, and collect the
`warn!` calls issued (each one carries the sorted, deduplicated list of unknown
names it reports). -/
def SelfProfiler.new (event_filters : Option (List String)) :
    SelfProfiler × List (List String) :=
  let profiler := Sink.new
  let (query_event_kind, profiler) := profiler.alloc_string "Query"
  let (generic_activity_event_kind, profiler) := profiler.alloc_string "GenericActivity"
  let (incremental_load_result_event_kind, profiler) :=
    profiler.alloc_string "IncrementalLoadResult"
  let (query_blocked_event_kind, profiler) := profiler.alloc_string "QueryBlocked"
  let (query_cache_hit_event_kind, profiler) := profiler.alloc_string "QueryCacheHit"
  let mw : EventFilter × List (List String) :=
    match event_filters with
    | some fs =>
      if (maskAndUnknown fs).2.length > 0 then
        ((maskAndUnknown fs).1,
         [dedupAdjacent (sortStrings (maskAndUnknown fs).2)])
      else
        ((maskAndUnknown fs).1, [])
    | none => (EventFilter.DEFAULT, [])
  ({ profiler,
     event_filter_mask := mw.1,
     string_cache := [],
     query_event_kind,
     generic_activity_event_kind,
     incremental_load_result_event_kind,
     query_blocked_event_kind,
     query_cache_hit_event_kind }, mw.2)

/-- `SelfProfiler::get_or_alloc_cached_string`: return the cached id if
present, otherwise allocate through the sink and cache the result.  (The
source's read-lock probe followed by the re-check under the write lock
collapse, sequentially, to this single lookup.) -/
def SelfProfiler.get_or_alloc_cached_string (p : SelfProfiler) (s : String) :
    StringId × SelfProfiler :=
  match p.string_cache.lookup s with
  | some id => (id, p)
  | none =>
    let (id, sink) := p.profiler.alloc_string s
    (id, { p with profiler := sink, string_cache := (s, id) :: p.string_cache })

/-- `SelfProfiler::query_key_recording_enabled`. -/
def SelfProfiler.query_key_recording_enabled (p : SelfProfiler) : Bool :=
  EventFilter.contains p.event_filter_mask EventFilter.QUERY_KEYS

/-- `pub struct TimingGuard<'a>(Option<measureme::TimingGuard<...>>)`:
either the no-op guard or an open interval remembering the kind, the event id
supplied at open time, and the recording thread. -/
inductive TimingGuard where
  | none
  | opened (event_kind : StringId) (event_id : EventId) (thread_id : Nat)
deriving DecidableEq, Repr

/-- `TimingGuard::start`: issue `start_recording_interval_event` to the sink
with the current thread's truncated id and return the live guard.  `tid` is
the ambient current thread id as a `u64`. -/
def TimingGuard.start (profiler : SelfProfiler) (event_kind : StringId)
    (event_id : EventId) (tid : Nat) : TimingGuard × SelfProfiler :=
  let thread_id := thread_id_to_u32 tid
  let sink := profiler.profiler.record
    (SinkCall.startInterval event_kind event_id thread_id)
  (TimingGuard.opened event_kind event_id thread_id,
   { profiler with profiler := sink })

/-- `TimingGuard::none`. -/
def TimingGuard.mkNone : TimingGuard := TimingGuard.none

/-- Dropping a `TimingGuard` (normal scope exit): an open interval is finished
with the event id supplied at open time; the `None` guard does nothing. -/
def TimingGuard.drop (g : TimingGuard) (profiler : SelfProfiler) : SelfProfiler :=
  match g with
  | TimingGuard.none => profiler
  | TimingGuard.opened event_kind event_id thread_id =>
    let sink := profiler.profiler.record
      (SinkCall.finishInterval event_kind event_id thread_id)
    { profiler with profiler := sink }

/-- `TimingGuard::finish_with_query_invocation_id`: consume the guard; if it is
open, finish the interval with the override event id
`EventId::from_virtual(StringId::new_virtual(query_invocation_id))` instead of
the one supplied at open time.  The `None` guard does nothing. -/
def TimingGuard.finish_with_query_invocation_id (g : TimingGuard)
    (query_invocation_id : Nat) (profiler : SelfProfiler) : SelfProfiler :=
  match g with
  | TimingGuard.none => profiler
  | TimingGuard.opened event_kind _ thread_id =>
    let event_id := EventId.fromVirtual (StringId.new_virtual query_invocation_id)
    let sink := profiler.profiler.record
      (SinkCall.finishInterval event_kind event_id thread_id)
    { profiler with profiler := sink }

/-- `pub struct SelfProfilerRef`. -/
structure SelfProfilerRef where
  profiler : Option SelfProfiler
  event_filter_mask : EventFilter
  print_verbose_generic_activities : Bool
  print_extra_verbose_generic_activities : Bool
deriving DecidableEq, Repr

/-- `SelfProfilerRef::new`: cache the profiler's mask, or `NONE` when there is
no profiler. -/
def SelfProfilerRef.new (profiler : Option SelfProfiler)
    (print_verbose_generic_activities : Bool)
    (print_extra_verbose_generic_activities : Bool) : SelfProfilerRef :=
  let event_filter_mask :=
    match profiler with
    | some p => p.event_filter_mask
    | Option.none => EventFilter.NONE
  { profiler,
    event_filter_mask,
    print_verbose_generic_activities,
    print_extra_verbose_generic_activities }

/-- `SelfProfilerRef::exec`: run `f` against the profiler only when the cached
mask contains `event_filter`; otherwise return the no-op guard untouched.  The
cold path `unwrap`s the optional handle, so a missing handle there is a panic,
modelled as `Option.none`. -/
def SelfProfilerRef.exec (r : SelfProfilerRef) (event_filter : EventFilter)
    (f : SelfProfiler → TimingGuard × SelfProfiler) :
    Option (TimingGuard × SelfProfilerRef) :=
  if EventFilter.contains r.event_filter_mask event_filter then
    match r.profiler with
    | some profiler =>
      let (guard, profiler) := f profiler
      some (guard, { r with profiler := some profiler })
    | Option.none => Option.none
  else
    some (TimingGuard.none, r)

/-- `SelfProfilerRef::generic_activity`. -/
def SelfProfilerRef.generic_activity (r : SelfProfilerRef) (event_id : String)
    (tid : Nat) : Option (TimingGuard × SelfProfilerRef) :=
  r.exec EventFilter.GENERIC_ACTIVITIES (fun profiler =>
    let (sid, profiler) := profiler.get_or_alloc_cached_string event_id
    TimingGuard.start profiler profiler.generic_activity_event_kind
      (EventId.fromLabel sid) tid)

/-- `SelfProfilerRef::query_provider`. -/
def SelfProfilerRef.query_provider (r : SelfProfilerRef) (tid : Nat) :
    Option (TimingGuard × SelfProfilerRef) :=
  r.exec EventFilter.QUERY_PROVIDERS (fun profiler =>
    TimingGuard.start profiler profiler.query_event_kind EventId.invalid tid)

/-- `SelfProfilerRef::query_blocked`. -/
def SelfProfilerRef.query_blocked (r : SelfProfilerRef) (tid : Nat) :
    Option (TimingGuard × SelfProfilerRef) :=
  r.exec EventFilter.QUERY_BLOCKED (fun profiler =>
    TimingGuard.start profiler profiler.query_blocked_event_kind EventId.invalid tid)

/-- `SelfProfilerRef::incr_cache_loading`. -/
def SelfProfilerRef.incr_cache_loading (r : SelfProfilerRef) (tid : Nat) :
    Option (TimingGuard × SelfProfilerRef) :=
  r.exec EventFilter.INCR_CACHE_LOADS (fun profiler =>
    TimingGuard.start profiler profiler.incremental_load_result_event_kind
      EventId.invalid tid)

/-- `SelfProfilerRef::instant_query_event`: record an instant event keyed by
the virtual id of the query invocation, then drop the returned no-op guard. -/
def SelfProfilerRef.instant_query_event (r : SelfProfilerRef)
    (event_kind : SelfProfiler → StringId) (query_invocation_id : Nat)
    (event_filter : EventFilter) (tid : Nat) : Option SelfProfilerRef :=
  (r.exec event_filter (fun profiler =>
    let event_id := StringId.new_virtual query_invocation_id
    let thread_id := thread_id_to_u32 tid
    let sink := profiler.profiler.record
      (SinkCall.recordInstant (event_kind profiler) (EventId.fromVirtual event_id)
        thread_id)
    (TimingGuard.none, { profiler with profiler := sink }))).map
    (fun x => x.2)

/-- `SelfProfilerRef::query_cache_hit`. -/
def SelfProfilerRef.query_cache_hit (r : SelfProfilerRef)
    (query_invocation_id : Nat) (tid : Nat) : Option SelfProfilerRef :=
  r.instant_query_event (fun profiler => profiler.query_cache_hit_event_kind)
    query_invocation_id EventFilter.QUERY_CACHE_HITS tid

/-- `SelfProfilerRef::enabled`. -/
def SelfProfilerRef.enabled (r : SelfProfilerRef) : Bool := r.profiler.isSome

/-- `pub struct VerboseTimingGuard<'a>`.  The start instant is an abstract
clock reading (`Nat`). -/
structure VerboseTimingGuard where
  event_id : String
  start : Option Nat
  _guard : TimingGuard
deriving DecidableEq, Repr

/-- `VerboseTimingGuard::start`: capture the ambient instant `now` only when
`verbose` is set.  (Named `start_guard` here because the structure already has
a field called `start`.) -/
def VerboseTimingGuard.start_guard (event_id : String) (verbose : Bool)
    (g : TimingGuard) (now : Nat) : VerboseTimingGuard :=
  { event_id, _guard := g, start := if verbose then some now else Option.none }

/-- Dropping a `VerboseTimingGuard`: print one timing line labelled with the
raw activity string exactly when a start instant was captured.  The result is
the printed (label, elapsed) pair, `none` when nothing is printed. -/
def VerboseTimingGuard.dropPrint (g : VerboseTimingGuard) (now : Nat) :
    Option (String × Nat) :=
  g.start.map (fun s => (g.event_id, now - s))

/-- `SelfProfilerRef::extra_verbose_generic_activity`: wraps `TimingGuard::none()`
— no measureme event is emitted (the source's FIXME) — and captures a start
instant only when the extra-verbose flag is set. -/
def SelfProfilerRef.extra_verbose_generic_activity (r : SelfProfilerRef)
    (event_id : String) (now : Nat) : VerboseTimingGuard :=
  VerboseTimingGuard.start_guard event_id r.print_extra_verbose_generic_activities
    TimingGuard.none now

/-- `SelfProfilerRef::verbose_generic_activity`: a generic activity (recorded
per the mask) wrapped in a verbose guard driven by the plain-verbose flag. -/
def SelfProfilerRef.verbose_generic_activity (r : SelfProfilerRef)
    (event_id : String) (tid : Nat) (now : Nat) :
    Option (VerboseTimingGuard × SelfProfilerRef) :=
  (r.generic_activity event_id tid).map (fun x =>
    (VerboseTimingGuard.start_guard event_id r.print_verbose_generic_activities
       x.1 now, x.2))

/-- Does this sink call allocate the string `s`? -/
def SinkCall.isAllocOf (c : SinkCall) (s : String) : Bool :=
  match c with
  | SinkCall.allocString t _ => t == s
  | _ => false

/-- Number of allocate-string calls for label `s` in a sink log. -/
def allocCount (s : String) (calls : List SinkCall) : Nat :=
  calls.countP (fun c => c.isAllocOf s)

/-- Run a sequence of `get_or_alloc_cached_string` calls against a profiler,
collecting the returned `StringId`s — the sequential interleaving of any
number of callers interning constant labels. -/
def runInterns (p : SelfProfiler) (labels : List String) :
    List StringId × SelfProfiler :=
  match labels with
  | [] => ([], p)
  | s :: rest =>
    let (id, p1) := p.get_or_alloc_cached_string s
    let (ids, pf) := runInterns p1 rest
    (id :: ids, pf)

/-- The sublist of filter names not recognized by `EVENT_FILTERS_BY_NAME`. -/
def unknownOf (fs : List String) : List String :=
  fs.filter (fun i => (EVENT_FILTERS_BY_NAME.find? (fun p => p.1 == i)).isNone)

/-- A session configured with the filter list `["none"]` and both verbosity
flags off: the profiler handle is present but every category is filtered out. -/
def noneSessionRef : SelfProfilerRef :=
  SelfProfilerRef.new (some (SelfProfiler.new (some ["none"])).1) false false

/-- A session profiler configured with the filter list `["all"]`. -/
def allSessionProfiler : SelfProfiler := (SelfProfiler.new (some ["all"])).1

/-- A reference to the `["all"]` session with both verbosity flags off. -/
def allSessionRef : SelfProfilerRef :=
  SelfProfilerRef.new (some allSessionProfiler) false false

/-! ## Helper lemmas -/

theorem contains_iff_testBit (m f : Nat) :
    EventFilter.contains m f = true ↔
      ∀ i, f.testBit i = true → m.testBit i = true := by
  unfold EventFilter.contains
  rw [beq_iff_eq]
  constructor
  · intro h i hf
    have hb := congrArg (fun x => Nat.testBit x i) h
    simp only [Nat.testBit_land] at hb
    rw [hf] at hb
    simpa using hb
  · intro h
    apply Nat.eq_of_testBit_eq
    intro i
    rw [Nat.testBit_land]
    cases hf : f.testBit i with
    | false => simp
    | true => simp [h i hf]

theorem contains_lor_left {m f : Nat} (x : Nat)
    (h : EventFilter.contains m f = true) :
    EventFilter.contains (m ||| x) f = true := by
  rw [contains_iff_testBit] at h ⊢
  intro i hf
  rw [Nat.testBit_lor, h i hf, Bool.true_or]

theorem contains_lor_self (m f : Nat) :
    EventFilter.contains (m ||| f) f = true := by
  rw [contains_iff_testBit]
  intro i hf
  rw [Nat.testBit_lor, hf, Bool.or_true]

theorem contains_zero_iff (f : Nat) :
    EventFilter.contains 0 f = true ↔ f = 0 := by
  unfold EventFilter.contains
  rw [beq_iff_eq, Nat.zero_and, eq_comm]

theorem goa_of_lookup_some {p : SelfProfiler} {s : String} {id : StringId}
    (h : p.string_cache.lookup s = some id) :
    p.get_or_alloc_cached_string s = (id, p) := by
  unfold SelfProfiler.get_or_alloc_cached_string
  rw [h]

theorem goa_lookup_self (p : SelfProfiler) (s : String) :
    (p.get_or_alloc_cached_string s).2.string_cache.lookup s =
      some (p.get_or_alloc_cached_string s).1 := by
  unfold SelfProfiler.get_or_alloc_cached_string
  cases h : p.string_cache.lookup s with
  | some id => simp [h]
  | none => simp [h, Sink.alloc_string, List.lookup]

theorem goa_lookup_mono {p : SelfProfiler} {t : String} {id : StringId}
    (s : String) (h : p.string_cache.lookup t = some id) :
    (p.get_or_alloc_cached_string s).2.string_cache.lookup t = some id := by
  unfold SelfProfiler.get_or_alloc_cached_string
  cases hs : p.string_cache.lookup s with
  | some i => simpa [hs] using h
  | none =>
    have hts : (t == s) = false := by
      rw [beq_eq_false_iff_ne]
      intro he
      rw [he, hs] at h
      exact Option.noConfusion h
    simp [hs, Sink.alloc_string, List.lookup, hts, h]

theorem goa_calls_of_lookup_none {p : SelfProfiler} {s : String}
    (h : p.string_cache.lookup s = none) :
    (p.get_or_alloc_cached_string s).2.profiler.calls =
      p.profiler.calls ++
        [SinkCall.allocString s (StringId.concrete p.profiler.nextStringId)] := by
  unfold SelfProfiler.get_or_alloc_cached_string
  simp [h, Sink.alloc_string]

theorem goa_state_of_lookup_some {p : SelfProfiler} {s : String}
    (h : (p.string_cache.lookup s).isSome = true) :
    (p.get_or_alloc_cached_string s).2 = p := by
  cases hs : p.string_cache.lookup s with
  | some id => rw [goa_of_lookup_some hs]
  | none => rw [hs] at h; exact Bool.noConfusion h

theorem allocCount_append (u : String) (l1 l2 : List SinkCall) :
    allocCount u (l1 ++ l2) = allocCount u l1 + allocCount u l2 := by
  unfold allocCount
  exact List.countP_append _ _ _

theorem allocCount_alloc_single (u s : String) (id : StringId) :
    allocCount u [SinkCall.allocString s id] = if s = u then 1 else 0 := by
  unfold allocCount
  by_cases h : s = u
  · simp [List.countP_cons, SinkCall.isAllocOf, h]
  · simp [List.countP_cons, SinkCall.isAllocOf, h]

theorem goa_allocCount_of_lookup_none {p : SelfProfiler} {s : String}
    (u : String) (h : p.string_cache.lookup s = none) :
    allocCount u (p.get_or_alloc_cached_string s).2.profiler.calls =
      allocCount u p.profiler.calls + (if s = u then 1 else 0) := by
  rw [goa_calls_of_lookup_none h, allocCount_append, allocCount_alloc_single]

theorem run_lookup_mono {p : SelfProfiler} {t : String} {id : StringId}
    (labels : List String) (h : p.string_cache.lookup t = some id) :
    (runInterns p labels).2.string_cache.lookup t = some id := by
  induction labels generalizing p with
  | nil => simpa [runInterns] using h
  | cons s rest ih =>
    simp only [runInterns]
    exact ih (goa_lookup_mono s h)

theorem run_allocCount_cached {p : SelfProfiler} {s : String} {id : StringId}
    (labels : List String) (h : p.string_cache.lookup s = some id) :
    allocCount s (runInterns p labels).2.profiler.calls =
      allocCount s p.profiler.calls := by
  induction labels generalizing p with
  | nil => simp [runInterns]
  | cons t rest ih =>
    simp only [runInterns]
    cases ht : p.string_cache.lookup t with
    | some i =>
      rw [goa_of_lookup_some ht]
      exact ih h
    | none =>
      have hts : t ≠ s := by
        intro he
        rw [he, h] at ht
        exact Option.noConfusion ht
      have h1 := ih (p := (p.get_or_alloc_cached_string t).2)
        (goa_lookup_mono t h)
      rw [h1, goa_allocCount_of_lookup_none s ht, if_neg hts, Nat.add_zero]

theorem run_allocCount_le (p : SelfProfiler) (s : String)
    (labels : List String) :
    allocCount s (runInterns p labels).2.profiler.calls ≤
      allocCount s p.profiler.calls + 1 := by
  induction labels generalizing p with
  | nil => simp [runInterns]
  | cons t rest ih =>
    simp only [runInterns]
    cases ht : p.string_cache.lookup t with
    | some i =>
      rw [goa_of_lookup_some ht]
      exact ih p
    | none =>
      by_cases hts : t = s
      · subst hts
        have hcached := goa_lookup_self p t
        rw [run_allocCount_cached rest hcached,
            goa_allocCount_of_lookup_none t ht, if_pos rfl]
      · have h1 := ih (p := (p.get_or_alloc_cached_string t).2)
        rw [goa_allocCount_of_lookup_none s ht, if_neg hts, Nat.add_zero] at h1
        exact h1

theorem run_get?_eq_final_lookup (p : SelfProfiler) (labels : List String)
    (i : Nat) (s : String) (h : labels.get? i = some s) :
    (runInterns p labels).1.get? i =
      (runInterns p labels).2.string_cache.lookup s := by
  induction labels generalizing p i with
  | nil => simp at h
  | cons t rest ih =>
    cases i with
    | zero =>
      simp only [List.get?] at h
      cases h
      simp only [runInterns, List.get?]
      exact (run_lookup_mono rest (goa_lookup_self p s)).symm
    | succ j =>
      simp only [List.get?] at h
      simp only [runInterns, List.get?]
      exact ih ((p.get_or_alloc_cached_string t).2) j h

theorem foldl_filterStep_snd (fs : List String) :
    ∀ acc : EventFilter × List String,
      (List.foldl filterStep acc fs).2 = acc.2 ++ unknownOf fs := by
  induction fs with
  | nil => intro acc; simp [unknownOf]
  | cons i rest ih =>
    intro acc
    simp only [List.foldl]
    cases hfind : EVENT_FILTERS_BY_NAME.find? (fun p => p.1 == i) with
    | some pr =>
      rw [ih]
      simp [filterStep, hfind, unknownOf, List.filter]
    | none =>
      rw [ih]
      simp [filterStep, hfind, unknownOf, List.filter]

theorem foldl_filterStep_fst_mono (fs : List String) :
    ∀ (acc : EventFilter × List String) (b : EventFilter),
      EventFilter.contains acc.1 b = true →
      EventFilter.contains (List.foldl filterStep acc fs).1 b = true := by
  induction fs with
  | nil => intro acc b h; simpa using h
  | cons i rest ih =>
    intro acc b h
    simp only [List.foldl]
    apply ih
    unfold filterStep
    cases hfind : EVENT_FILTERS_BY_NAME.find? (fun p => p.1 == i) with
    | some pr => exact contains_lor_left pr.2 h
    | none => exact h

theorem foldl_filterStep_contains (fs : List String) :
    ∀ (acc : EventFilter × List String) (s : String) (x : String)
      (bits : EventFilter), s ∈ fs →
      EVENT_FILTERS_BY_NAME.find? (fun p => p.1 == s) = some (x, bits) →
      EventFilter.contains (List.foldl filterStep acc fs).1 bits = true := by
  induction fs with
  | nil => intro _ _ _ _ hmem; exact absurd hmem (List.not_mem_nil _)
  | cons i rest ih =>
    intro acc s x bits hmem hfind
    rcases List.mem_cons.mp hmem with hsi | hsr
    · subst hsi
      simp only [List.foldl]
      apply foldl_filterStep_fst_mono
      unfold filterStep
      rw [hfind]
      exact contains_lor_self _ _
    · simp only [List.foldl]
      exact ih _ s x bits hsr hfind

theorem find?_of_mem_table {s : String} {bits : EventFilter}
    (h : (s, bits) ∈ EVENT_FILTERS_BY_NAME) :
    EVENT_FILTERS_BY_NAME.find? (fun p => p.1 == s) = some (s, bits) := by
  simp only [EVENT_FILTERS_BY_NAME, List.mem_cons, List.not_mem_nil,
    or_false] at h
  rcases h with h | h | h | h | h | h | h | h <;>
    (rw [Prod.ext_iff] at h; obtain ⟨h1, h2⟩ := h; subst h1; subst h2; rfl)

theorem mem_dedupAdjacent (l : List String) (x : String) :
    x ∈ dedupAdjacent l ↔ x ∈ l := by
  induction l with
  | nil => simp [dedupAdjacent]
  | cons a t ih =>
    cases t with
    | nil => simp [dedupAdjacent]
    | cons b rest =>
      by_cases hab : a = b
      · rw [show dedupAdjacent (a :: b :: rest) = dedupAdjacent (b :: rest)
          from by simp [dedupAdjacent, hab]]
        rw [ih]
        subst hab
        simp [List.mem_cons]
      · rw [show dedupAdjacent (a :: b :: rest) =
            a :: dedupAdjacent (b :: rest)
          from by simp [dedupAdjacent, hab]]
        simp only [List.mem_cons] at ih ⊢
        rw [ih]

theorem dedupAdjacent_nodup (l : List String) (h : l.Sorted (· ≤ ·)) :
    (dedupAdjacent l).Nodup := by
  induction l with
  | nil => simp [dedupAdjacent]
  | cons a t ih =>
    cases t with
    | nil => simp [dedupAdjacent]
    | cons b rest =>
      rw [List.sorted_cons] at h
      obtain ⟨hle, htail⟩ := h
      by_cases hab : a = b
      · rw [show dedupAdjacent (a :: b :: rest) = dedupAdjacent (b :: rest)
          from by simp [dedupAdjacent, hab]]
        exact ih htail
      · rw [show dedupAdjacent (a :: b :: rest) =
            a :: dedupAdjacent (b :: rest)
          from by simp [dedupAdjacent, hab]]
        rw [List.nodup_cons]
        refine ⟨?_, ih htail⟩
        intro hmem
        rw [mem_dedupAdjacent] at hmem
        rcases List.mem_cons.mp hmem with he | hr
        · exact hab he
        · have hba : b ≤ a := by
            rw [List.sorted_cons] at htail
            exact htail.1 a hr
          have hab' : a ≤ b := hle b (List.mem_cons_self b rest)
          exact hab (le_antisymm hab' hba)

theorem mem_sortStrings (l : List String) (x : String) :
    x ∈ sortStrings l ↔ x ∈ l :=
  (List.perm_insertionSort (· ≤ ·) l).mem_iff

theorem sortStrings_sorted (l : List String) :
    (sortStrings l).Sorted (· ≤ ·) :=
  List.sorted_insertionSort (· ≤ ·) l

theorem new_mask_some (fs : List String) :
    (SelfProfiler.new (some fs)).1.event_filter_mask = (maskAndUnknown fs).1 := by
  unfold SelfProfiler.new
  by_cases h : (maskAndUnknown fs).2.length > 0 <;> simp [h, Sink.alloc_string]

theorem new_warnings_some (fs : List String) :
    (SelfProfiler.new (some fs)).2 =
      if (maskAndUnknown fs).2.length > 0 then
        [dedupAdjacent (sortStrings (maskAndUnknown fs).2)]
      else [] := by
  unfold SelfProfiler.new
  by_cases h : (maskAndUnknown fs).2.length > 0 <;> simp [h, Sink.alloc_string]

theorem maskAndUnknown_snd (fs : List String) :
    (maskAndUnknown fs).2 = unknownOf fs := by
  unfold maskAndUnknown
  rw [foldl_filterStep_snd]
  rfl

theorem dedupAdjacent_sublist (l : List String) :
    (dedupAdjacent l).Sublist l := by
  induction l with
  | nil => simp [dedupAdjacent]
  | cons a t ih =>
    cases t with
    | nil => simp [dedupAdjacent]
    | cons b rest =>
      by_cases hab : a = b
      · rw [show dedupAdjacent (a :: b :: rest) = dedupAdjacent (b :: rest)
          from by simp [dedupAdjacent, hab]]
        exact ih.cons a
      · rw [show dedupAdjacent (a :: b :: rest) =
            a :: dedupAdjacent (b :: rest)
          from by simp [dedupAdjacent, hab]]
        exact ih.cons₂ a

theorem dedupAdjacent_sorted {l : List String} (h : l.Sorted (· ≤ ·)) :
    (dedupAdjacent l).Sorted (· ≤ ·) :=
  h.sublist (dedupAdjacent_sublist l)

/-! ## The claims -/

/-- Claim C1, counterexample: constructing a `SelfProfiler` with an empty
(`Some []`) filter list does not yield the default mask — the loop body never
runs and the mask stays `EventFilter::empty()`, while the claim says the empty
list yields `DEFAULT`. -/
theorem C1_counterexample_empty_list :
    ¬ ((SelfProfiler.new (some [])).1.event_filter_mask =
        EventFilter.DEFAULT) := by
  decide

/-- Claim C1 (amended): each supported category name alone yields a mask with
exactly that category's bit; `"all"` yields the full `u32` mask, which has
every category bit set; `"none"` yields the empty mask; an absent (`None`)
filter list yields the default combination; an empty (`Some []`) filter list
yields the empty mask, not the default. -/
theorem C1_event_filter_mask_from_names :
    (SelfProfiler.new (some ["generic-activity"])).1.event_filter_mask =
      EventFilter.GENERIC_ACTIVITIES
  ∧ (SelfProfiler.new (some ["query-provider"])).1.event_filter_mask =
      EventFilter.QUERY_PROVIDERS
  ∧ (SelfProfiler.new (some ["query-cache-hit"])).1.event_filter_mask =
      EventFilter.QUERY_CACHE_HITS
  ∧ (SelfProfiler.new (some ["query-blocked"])).1.event_filter_mask =
      EventFilter.QUERY_BLOCKED
  ∧ (SelfProfiler.new (some ["incr-cache-load"])).1.event_filter_mask =
      EventFilter.INCR_CACHE_LOADS
  ∧ (SelfProfiler.new (some ["query-keys"])).1.event_filter_mask =
      EventFilter.QUERY_KEYS
  ∧ (SelfProfiler.new (some ["all"])).1.event_filter_mask = EventFilter.ALL
  ∧ EventFilter.contains EventFilter.ALL EventFilter.GENERIC_ACTIVITIES = true
  ∧ EventFilter.contains EventFilter.ALL EventFilter.QUERY_PROVIDERS = true
  ∧ EventFilter.contains EventFilter.ALL EventFilter.QUERY_CACHE_HITS = true
  ∧ EventFilter.contains EventFilter.ALL EventFilter.QUERY_BLOCKED = true
  ∧ EventFilter.contains EventFilter.ALL EventFilter.INCR_CACHE_LOADS = true
  ∧ EventFilter.contains EventFilter.ALL EventFilter.QUERY_KEYS = true
  ∧ (SelfProfiler.new (some ["none"])).1.event_filter_mask = EventFilter.NONE
  ∧ (SelfProfiler.new Option.none).1.event_filter_mask = EventFilter.DEFAULT
  ∧ (SelfProfiler.new (some [])).1.event_filter_mask = EventFilter.empty := by
  decide

/-- Claim C2: `get_or_alloc_cached_string` allocates each constant label at
most once per session (any sequence of interleaved calls issues at most one
allocate-string sink call per label, and none at all for a label that is
already cached), every call for the same label returns the same `StringId`,
and a call for a cached label returns the cached id with the profiler state
untouched. -/
theorem C2_cached_string_interning (p : SelfProfiler) (labels : List String) :
    (∀ s id, p.string_cache.lookup s = some id →
       p.get_or_alloc_cached_string s = (id, p))
  ∧ (∀ s, allocCount s (runInterns p labels).2.profiler.calls ≤
       allocCount s p.profiler.calls + 1)
  ∧ (∀ s id, p.string_cache.lookup s = some id →
       allocCount s (runInterns p labels).2.profiler.calls =
         allocCount s p.profiler.calls)
  ∧ (∀ i j s, labels.get? i = some s → labels.get? j = some s →
       (runInterns p labels).1.get? i = (runInterns p labels).1.get? j) := by
  refine ⟨?_, ?_, ?_, ?_⟩
  · intro s id h
    exact goa_of_lookup_some h
  · intro s
    exact run_allocCount_le p s labels
  · intro s id h
    exact run_allocCount_cached labels h
  · intro i j s hi hj
    rw [run_get?_eq_final_lookup p labels i s hi,
        run_get?_eq_final_lookup p labels j s hj]

/-- Claim C2, witness: in the `["all"]` session, interning `"a"` twice yields
the same id both times and at most one new allocate-string call; a third call
on the state where `"a"` is cached returns the cached id without touching the
state. -/
theorem C2_witness :
    ((runInterns allSessionProfiler ["a", "a"]).1.get? 0 =
       (runInterns allSessionProfiler ["a", "a"]).1.get? 1)
  ∧ (allocCount "a" (runInterns allSessionProfiler ["a", "a"]).2.profiler.calls ≤
       allocCount "a" allSessionProfiler.profiler.calls + 1)
  ∧ ((runInterns allSessionProfiler ["a"]).2.get_or_alloc_cached_string "a" =
       (StringId.concrete 5, (runInterns allSessionProfiler ["a"]).2))
  ∧ (allocCount "a"
       (runInterns (runInterns allSessionProfiler ["a"]).2 ["a", "a"]).2.profiler.calls =
       allocCount "a" (runInterns allSessionProfiler ["a"]).2.profiler.calls) :=
  ⟨(C2_cached_string_interning allSessionProfiler ["a", "a"]).2.2.2 0 1 "a"
     rfl rfl,
   (C2_cached_string_interning allSessionProfiler ["a", "a"]).2.1 "a",
   (C2_cached_string_interning (runInterns allSessionProfiler ["a"]).2 []).1
     "a" (StringId.concrete 5) rfl,
   (C2_cached_string_interning (runInterns allSessionProfiler ["a"]).2
     ["a", "a"]).2.2.1 "a" (StringId.concrete 5) rfl⟩

/-- Claim C3: when the corresponding category bit is not set in the cached
mask, every per-category entry point returns the no-op (`None`) guard and the
reference — profiler handle, string cache and sink log included — is returned
unchanged, wrapped in `some` (so the call cannot fail). -/
theorem C3_disabled_category_noop (r : SelfProfilerRef) (s : String)
    (tid qid : Nat) :
    (EventFilter.contains r.event_filter_mask
        EventFilter.GENERIC_ACTIVITIES = false →
      r.generic_activity s tid = some (TimingGuard.none, r))
  ∧ (EventFilter.contains r.event_filter_mask
        EventFilter.QUERY_PROVIDERS = false →
      r.query_provider tid = some (TimingGuard.none, r))
  ∧ (EventFilter.contains r.event_filter_mask
        EventFilter.QUERY_CACHE_HITS = false →
      r.query_cache_hit qid tid = some r)
  ∧ (EventFilter.contains r.event_filter_mask
        EventFilter.QUERY_BLOCKED = false →
      r.query_blocked tid = some (TimingGuard.none, r))
  ∧ (EventFilter.contains r.event_filter_mask
        EventFilter.INCR_CACHE_LOADS = false →
      r.incr_cache_loading tid = some (TimingGuard.none, r)) := by
  refine ⟨?_, ?_, ?_, ?_, ?_⟩ <;> intro h <;>
    simp [SelfProfilerRef.generic_activity, SelfProfilerRef.query_provider,
      SelfProfilerRef.query_cache_hit, SelfProfilerRef.query_blocked,
      SelfProfilerRef.incr_cache_loading, SelfProfilerRef.instant_query_event,
      SelfProfilerRef.exec, h]

/-- Claim C3, witness: in the `["none"]` session every category is disabled
and all five entry points are no-ops. -/
theorem C3_witness :
    (noneSessionRef.generic_activity "x" 3 =
       some (TimingGuard.none, noneSessionRef))
  ∧ (noneSessionRef.query_provider 3 = some (TimingGuard.none, noneSessionRef))
  ∧ (noneSessionRef.query_cache_hit 7 3 = some noneSessionRef)
  ∧ (noneSessionRef.query_blocked 3 = some (TimingGuard.none, noneSessionRef))
  ∧ (noneSessionRef.incr_cache_loading 3 =
       some (TimingGuard.none, noneSessionRef)) :=
  ⟨(C3_disabled_category_noop noneSessionRef "x" 3 7).1 (by decide),
   (C3_disabled_category_noop noneSessionRef "x" 3 7).2.1 (by decide),
   (C3_disabled_category_noop noneSessionRef "x" 3 7).2.2.1 (by decide),
   (C3_disabled_category_noop noneSessionRef "x" 3 7).2.2.2.1 (by decide),
   (C3_disabled_category_noop noneSessionRef "x" 3 7).2.2.2.2 (by decide)⟩

/-- Claim C4: a reference constructed with an absent profiler handle caches
the `NONE` mask and every recording entry point is a no-op; and for any
reference built by `SelfProfilerRef::new`, `exec` can never reach the
`unwrap` panic for a non-empty filter (whenever the mask contains a non-empty
filter, the handle is present). -/
theorem C4_absent_profiler_safe (v e : Bool) (s : String) (tid qid : Nat) :
    ((SelfProfilerRef.new Option.none v e).event_filter_mask =
       EventFilter.NONE)
  ∧ ((SelfProfilerRef.new Option.none v e).generic_activity s tid =
       some (TimingGuard.none, SelfProfilerRef.new Option.none v e))
  ∧ ((SelfProfilerRef.new Option.none v e).query_provider tid =
       some (TimingGuard.none, SelfProfilerRef.new Option.none v e))
  ∧ ((SelfProfilerRef.new Option.none v e).query_cache_hit qid tid =
       some (SelfProfilerRef.new Option.none v e))
  ∧ ((SelfProfilerRef.new Option.none v e).query_blocked tid =
       some (TimingGuard.none, SelfProfilerRef.new Option.none v e))
  ∧ ((SelfProfilerRef.new Option.none v e).incr_cache_loading tid =
       some (TimingGuard.none, SelfProfilerRef.new Option.none v e))
  ∧ (∀ (prof : Option SelfProfiler) (filter : EventFilter),
       filter ≠ EventFilter.NONE →
       EventFilter.contains (SelfProfilerRef.new prof v e).event_filter_mask
         filter = true →
       ∃ p, (SelfProfilerRef.new prof v e).profiler = some p)
  ∧ (∀ (prof : Option SelfProfiler) (filter : EventFilter)
       (f : SelfProfiler → TimingGuard × SelfProfiler),
       filter ≠ EventFilter.NONE →
       (SelfProfilerRef.new prof v e).exec filter f ≠ Option.none) := by
  have hmask : (SelfProfilerRef.new Option.none v e).event_filter_mask =
      EventFilter.NONE := rfl
  have hga : EventFilter.contains
      (SelfProfilerRef.new Option.none v e).event_filter_mask
      EventFilter.GENERIC_ACTIVITIES = false := by rw [hmask]; decide
  have hqp : EventFilter.contains
      (SelfProfilerRef.new Option.none v e).event_filter_mask
      EventFilter.QUERY_PROVIDERS = false := by rw [hmask]; decide
  have hqc : EventFilter.contains
      (SelfProfilerRef.new Option.none v e).event_filter_mask
      EventFilter.QUERY_CACHE_HITS = false := by rw [hmask]; decide
  have hqb : EventFilter.contains
      (SelfProfilerRef.new Option.none v e).event_filter_mask
      EventFilter.QUERY_BLOCKED = false := by rw [hmask]; decide
  have hil : EventFilter.contains
      (SelfProfilerRef.new Option.none v e).event_filter_mask
      EventFilter.INCR_CACHE_LOADS = false := by rw [hmask]; decide
  refine ⟨hmask, ?_, ?_, ?_, ?_, ?_, ?_, ?_⟩
  · simp [SelfProfilerRef.generic_activity, SelfProfilerRef.exec, hga]
  · simp [SelfProfilerRef.query_provider, SelfProfilerRef.exec, hqp]
  · simp [SelfProfilerRef.query_cache_hit,
      SelfProfilerRef.instant_query_event, SelfProfilerRef.exec, hqc]
  · simp [SelfProfilerRef.query_blocked, SelfProfilerRef.exec, hqb]
  · simp [SelfProfilerRef.incr_cache_loading, SelfProfilerRef.exec, hil]
  · intro prof filter hne hcont
    cases prof with
    | some p => exact ⟨p, rfl⟩
    | none =>
      have h0 : EventFilter.contains 0 filter = true := hcont
      rw [contains_zero_iff] at h0
      exact absurd h0 hne
  · intro prof filter f hne
    cases prof with
    | some p =>
      simp only [SelfProfilerRef.exec, SelfProfilerRef.new]
      split <;> simp
    | none =>
      unfold SelfProfilerRef.exec
      have hc : EventFilter.contains
          (SelfProfilerRef.new Option.none v e).event_filter_mask filter ≠
            true := by
        intro h0
        rw [show (SelfProfilerRef.new Option.none v e).event_filter_mask = 0
          from rfl] at h0
        rw [contains_zero_iff] at h0
        exact absurd h0 hne
      simp [hc]

/-- Claim C4, witness: the `None`-handle reference is a no-op everywhere, and
`exec` on a present-handle session cannot panic for a non-empty filter. -/
theorem C4_witness :
    ((SelfProfilerRef.new Option.none false false).event_filter_mask =
       EventFilter.NONE)
  ∧ ((SelfProfilerRef.new Option.none false false).query_provider 3 =
       some (TimingGuard.none, SelfProfilerRef.new Option.none false false))
  ∧ ((SelfProfilerRef.new (some allSessionProfiler) false false).exec
       EventFilter.QUERY_PROVIDERS (fun p => (TimingGuard.none, p)) ≠
       Option.none)
  ∧ ((SelfProfilerRef.new Option.none false false).exec
       EventFilter.QUERY_PROVIDERS (fun p => (TimingGuard.none, p)) ≠
       Option.none) :=
  ⟨(C4_absent_profiler_safe false false "x" 3 7).1,
   (C4_absent_profiler_safe false false "x" 3 7).2.2.1,
   (C4_absent_profiler_safe false false "x" 3 7).2.2.2.2.2.2.2
     (some allSessionProfiler) EventFilter.QUERY_PROVIDERS _ (by decide),
   (C4_absent_profiler_safe false false "x" 3 7).2.2.2.2.2.2.2
     Option.none EventFilter.QUERY_PROVIDERS _ (by decide)⟩

/-- Claim C5: `finish_with_query_invocation_id` consumes the guard (closing is
a single state transition of the consumed value); on the `None` guard it
performs no sink call and leaves the profiler untouched; on an open guard it
finishes the interval with the override
`EventId::from_virtual(StringId::new_virtual(qid))`, independent of the event
id supplied at open time. -/
theorem C5_guard_finish (p : SelfProfiler) (qid : Nat) (kind : StringId)
    (eid eid2 : EventId) (tid : Nat) :
    (TimingGuard.finish_with_query_invocation_id TimingGuard.none qid p = p)
  ∧ (TimingGuard.finish_with_query_invocation_id
       (TimingGuard.opened kind eid tid) qid p =
       { p with profiler := (p.profiler.record (SinkCall.finishInterval kind
           (EventId.fromVirtual (StringId.new_virtual qid)) tid)) })
  ∧ (TimingGuard.finish_with_query_invocation_id
       (TimingGuard.opened kind eid tid) qid p =
     TimingGuard.finish_with_query_invocation_id
       (TimingGuard.opened kind eid2 tid) qid p) :=
  ⟨rfl, rfl, rfl⟩

/-- Claim C6: with the category enabled and the handle present,
`query_provider`, `query_blocked` and `incr_cache_loading` each append exactly
one `startInterval` under their pre-allocated kind label with
`EventId::INVALID` and return the corresponding open guard, while
`query_cache_hit qid` appends exactly one `recordInstant` under the
`QueryCacheHit` kind whose event id is the virtual identifier with numeric
value `qid`. -/
theorem C6_enabled_entry_points (r : SelfProfilerRef) (p : SelfProfiler)
    (tid qid : Nat) (hp : r.profiler = some p) :
    (EventFilter.contains r.event_filter_mask
        EventFilter.QUERY_PROVIDERS = true →
      r.query_provider tid =
        some (TimingGuard.opened p.query_event_kind EventId.invalid
            (thread_id_to_u32 tid),
          { r with profiler := some { p with profiler := (p.profiler.record
              (SinkCall.startInterval p.query_event_kind EventId.invalid
                (thread_id_to_u32 tid))) } }))
  ∧ (EventFilter.contains r.event_filter_mask
        EventFilter.QUERY_BLOCKED = true →
      r.query_blocked tid =
        some (TimingGuard.opened p.query_blocked_event_kind EventId.invalid
            (thread_id_to_u32 tid),
          { r with profiler := some { p with profiler := (p.profiler.record
              (SinkCall.startInterval p.query_blocked_event_kind
                EventId.invalid (thread_id_to_u32 tid))) } }))
  ∧ (EventFilter.contains r.event_filter_mask
        EventFilter.INCR_CACHE_LOADS = true →
      r.incr_cache_loading tid =
        some (TimingGuard.opened p.incremental_load_result_event_kind
            EventId.invalid (thread_id_to_u32 tid),
          { r with profiler := some { p with profiler := (p.profiler.record
              (SinkCall.startInterval p.incremental_load_result_event_kind
                EventId.invalid (thread_id_to_u32 tid))) } }))
  ∧ (EventFilter.contains r.event_filter_mask
        EventFilter.QUERY_CACHE_HITS = true →
      r.query_cache_hit qid tid =
        some { r with profiler := some { p with profiler := (p.profiler.record
            (SinkCall.recordInstant p.query_cache_hit_event_kind
              (EventId.fromVirtual (StringId.new_virtual qid))
              (thread_id_to_u32 tid))) } })
  ∧ (StringId.new_virtual qid = StringId.virt qid) := by
  refine ⟨?_, ?_, ?_, ?_, rfl⟩ <;> intro h <;>
    simp [SelfProfilerRef.query_provider, SelfProfilerRef.query_blocked,
      SelfProfilerRef.incr_cache_loading, SelfProfilerRef.query_cache_hit,
      SelfProfilerRef.instant_query_event, SelfProfilerRef.exec, hp, h,
      TimingGuard.start]

/-- Claim C6, witness: in the `["all"]` session, `query_provider` on thread 5
opens one `Query` interval with `INVALID`, and a cache hit for invocation 42
on thread 7 records one instant whose event id is the virtual id 42. -/
theorem C6_witness :
    (allSessionRef.query_provider 5 =
      some (TimingGuard.opened allSessionProfiler.query_event_kind
          EventId.invalid (thread_id_to_u32 5),
        { allSessionRef with profiler := some { allSessionProfiler with
            profiler := (allSessionProfiler.profiler.record
              (SinkCall.startInterval allSessionProfiler.query_event_kind
                EventId.invalid (thread_id_to_u32 5))) } }))
  ∧ (allSessionRef.query_cache_hit 42 7 =
      some { allSessionRef with profiler := some { allSessionProfiler with
          profiler := (allSessionProfiler.profiler.record
            (SinkCall.recordInstant
              allSessionProfiler.query_cache_hit_event_kind
              (EventId.fromVirtual (StringId.virt 42))
              (thread_id_to_u32 7))) } }) :=
  ⟨(C6_enabled_entry_points allSessionRef allSessionProfiler 5 42 rfl).1
     (by decide),
   (C6_enabled_entry_points allSessionRef allSessionProfiler 7 42 rfl).2.2.2.1
     (by decide)⟩

/-- Claim C7: unknown filter names are non-fatal — each recognized name still
contributes its bits to the mask, and the unknown names are reported in at
most one warning, whose list is sorted, duplicate-free, and contains exactly
the unrecognized names of the filter list. -/
theorem C7_unknown_filter_names (fs : List String) :
    (∀ s bits, (s, bits) ∈ EVENT_FILTERS_BY_NAME → s ∈ fs →
       EventFilter.contains (SelfProfiler.new (some fs)).1.event_filter_mask
         bits = true)
  ∧ ((SelfProfiler.new (some fs)).2.length =
       if unknownOf fs = [] then 0 else 1)
  ∧ (∀ ws, ws ∈ (SelfProfiler.new (some fs)).2 →
       ws.Nodup ∧ ws.Sorted (· ≤ ·) ∧ (∀ s, s ∈ ws ↔ s ∈ unknownOf fs)) := by
  refine ⟨?_, ?_, ?_⟩
  · intro s bits hmem hin
    rw [new_mask_some]
    exact foldl_filterStep_contains fs _ s s bits hin (find?_of_mem_table hmem)
  · rw [new_warnings_some, maskAndUnknown_snd]
    cases h : unknownOf fs with
    | nil => simp [h]
    | cons a t => simp [h]
  · intro ws hws
    rw [new_warnings_some, maskAndUnknown_snd] at hws
    by_cases h : (unknownOf fs).length > 0
    · rw [if_pos h] at hws
      rcases List.mem_singleton.mp hws with rfl
      refine ⟨dedupAdjacent_nodup _ (sortStrings_sorted _),
        dedupAdjacent_sorted (sortStrings_sorted _), ?_⟩
      intro s
      rw [mem_dedupAdjacent, mem_sortStrings]
    · rw [if_neg h] at hws
      exact absurd hws (List.not_mem_nil ws)

/-- Claim C7, witness: with the filter list `["foo", "foo", "query-provider"]`
the valid name is applied and exactly one warning is issued, reporting
`"foo"` once. -/
theorem C7_witness :
    (EventFilter.contains
       (SelfProfiler.new
         (some ["foo", "foo", "query-provider"])).1.event_filter_mask
       EventFilter.QUERY_PROVIDERS = true)
  ∧ ((SelfProfiler.new (some ["foo", "foo", "query-provider"])).2.length =
       if unknownOf ["foo", "foo", "query-provider"] = [] then 0 else 1)
  ∧ ((SelfProfiler.new (some ["foo", "foo"])).2 = [["foo"]])
  ∧ (["foo"] : List String).Nodup
  ∧ ("foo" ∈ (["foo"] : List String) ↔ "foo" ∈ unknownOf ["foo", "foo"]) := by
  have hw : (SelfProfiler.new (some ["foo", "foo"])).2 = [["foo"]] := by
    rw [new_warnings_some, maskAndUnknown_snd]
    rw [show unknownOf ["foo", "foo"] = ["foo", "foo"] from rfl]
    simp [sortStrings, List.insertionSort, List.orderedInsert, dedupAdjacent]
  have hmem : (["foo"] : List String) ∈ (SelfProfiler.new (some ["foo", "foo"])).2 := by
    rw [hw]
    exact List.mem_singleton.mpr rfl
  exact ⟨(C7_unknown_filter_names ["foo", "foo", "query-provider"]).1
     "query-provider" EventFilter.QUERY_PROVIDERS (by decide) (by decide),
   (C7_unknown_filter_names ["foo", "foo", "query-provider"]).2.1,
   hw,
   ((C7_unknown_filter_names ["foo", "foo"]).2.2 ["foo"] hmem).1,
   ((C7_unknown_filter_names ["foo", "foo"]).2.2 ["foo"] hmem).2.2 "foo"⟩

/-- Claim C8: `extra_verbose_generic_activity` wraps a `None` guard no matter
what the event-filter mask says — it never records a measureme event and
leaves any profiler unchanged on drop — and it captures a start instant
(hence prints a timing line on drop) exactly when the extra-verbose flag is
set. -/
theorem C8_extra_verbose_records_nothing (r : SelfProfilerRef) (s : String)
    (now later : Nat) (p : SelfProfiler) :
    ((r.extra_verbose_generic_activity s now)._guard = TimingGuard.none)
  ∧ ((r.extra_verbose_generic_activity s now).start =
       if r.print_extra_verbose_generic_activities then some now
       else Option.none)
  ∧ ((r.extra_verbose_generic_activity s now).start.isSome =
       r.print_extra_verbose_generic_activities)
  ∧ (((r.extra_verbose_generic_activity s now).dropPrint later).isSome =
       r.print_extra_verbose_generic_activities)
  ∧ (TimingGuard.drop (r.extra_verbose_generic_activity s now)._guard p = p) := by
  refine ⟨rfl, rfl, ?_, ?_, rfl⟩
  · cases hb : r.print_extra_verbose_generic_activities <;>
      simp [SelfProfilerRef.extra_verbose_generic_activity,
        VerboseTimingGuard.start_guard, hb]
  · cases hb : r.print_extra_verbose_generic_activities <;>
      simp [SelfProfilerRef.extra_verbose_generic_activity,
        VerboseTimingGuard.start_guard, VerboseTimingGuard.dropPrint, hb]

/-- Claim C9: `enabled()` is exactly presence of the shared profiler handle,
independent of the mask: the `["none"]` session reports `enabled = true`
while every recording entry point is still a no-op. -/
theorem C9_enabled_iff_handle_present (prof : Option SelfProfiler)
    (v e : Bool) (s : String) (tid qid : Nat) :
    ((SelfProfilerRef.new prof v e).enabled = prof.isSome)
  ∧ (noneSessionRef.enabled = true)
  ∧ (noneSessionRef.generic_activity s tid =
       some (TimingGuard.none, noneSessionRef))
  ∧ (noneSessionRef.query_provider tid = some (TimingGuard.none, noneSessionRef))
  ∧ (noneSessionRef.query_cache_hit qid tid = some noneSessionRef)
  ∧ (noneSessionRef.query_blocked tid = some (TimingGuard.none, noneSessionRef))
  ∧ (noneSessionRef.incr_cache_loading tid =
       some (TimingGuard.none, noneSessionRef)) := by
  have hga : EventFilter.contains noneSessionRef.event_filter_mask
      EventFilter.GENERIC_ACTIVITIES = false := by decide
  have hqp : EventFilter.contains noneSessionRef.event_filter_mask
      EventFilter.QUERY_PROVIDERS = false := by decide
  have hqc : EventFilter.contains noneSessionRef.event_filter_mask
      EventFilter.QUERY_CACHE_HITS = false := by decide
  have hqb : EventFilter.contains noneSessionRef.event_filter_mask
      EventFilter.QUERY_BLOCKED = false := by decide
  have hil : EventFilter.contains noneSessionRef.event_filter_mask
      EventFilter.INCR_CACHE_LOADS = false := by decide
  refine ⟨?_, rfl, ?_, ?_, ?_, ?_, ?_⟩
  · cases prof <;> rfl
  · simp [SelfProfilerRef.generic_activity, SelfProfilerRef.exec, hga]
  · simp [SelfProfilerRef.query_provider, SelfProfilerRef.exec, hqp]
  · simp [SelfProfilerRef.query_cache_hit,
      SelfProfilerRef.instant_query_event, SelfProfilerRef.exec, hqc]
  · simp [SelfProfilerRef.query_blocked, SelfProfilerRef.exec, hqb]
  · simp [SelfProfilerRef.incr_cache_loading, SelfProfilerRef.exec, hil]

/-- Claim C10: the thread identifier attached to every recorded interval and
instant event is the current thread's 64-bit id reduced modulo `2 ^ 32`:
`TimingGuard::start` opens its interval with `tid % 2 ^ 32`, and the
instant-event path (`instant_query_event` via `query_cache_hit`) records its
instant with `tid % 2 ^ 32`; hence two thread ids that agree modulo `2 ^ 32`
record indistinguishable events on both paths. -/
theorem C10_thread_id_truncated (tid t1 t2 : Nat) (p : SelfProfiler)
    (kind : StringId) (eid : EventId) (r : SelfProfilerRef) (qid : Nat) :
    (thread_id_to_u32 tid = tid % 2 ^ 32)
  ∧ (t1 % 2 ^ 32 = t2 % 2 ^ 32 →
       thread_id_to_u32 t1 = thread_id_to_u32 t2)
  ∧ ((TimingGuard.start p kind eid tid).2.profiler.calls =
       p.profiler.calls ++
         [SinkCall.startInterval kind eid (thread_id_to_u32 tid)])
  ∧ ((TimingGuard.start p kind eid tid).1 =
       TimingGuard.opened kind eid (tid % 2 ^ 32))
  ∧ (t1 % 2 ^ 32 = t2 % 2 ^ 32 →
       TimingGuard.start p kind eid t1 = TimingGuard.start p kind eid t2)
  ∧ (r.profiler = some p →
       EventFilter.contains r.event_filter_mask
         EventFilter.QUERY_CACHE_HITS = true →
       r.query_cache_hit qid tid =
         some { r with profiler := some { p with profiler := (p.profiler.record
             (SinkCall.recordInstant p.query_cache_hit_event_kind
               (EventId.fromVirtual (StringId.new_virtual qid))
               (tid % 2 ^ 32))) } })
  ∧ (t1 % 2 ^ 32 = t2 % 2 ^ 32 →
       r.query_cache_hit qid t1 = r.query_cache_hit qid t2) := by
  refine ⟨rfl, ?_, rfl, rfl, ?_, ?_, ?_⟩
  · intro h
    unfold thread_id_to_u32
    exact h
  · intro h
    unfold TimingGuard.start thread_id_to_u32
    rw [h]
  · intro hp h
    simp [SelfProfilerRef.query_cache_hit,
      SelfProfilerRef.instant_query_event, SelfProfilerRef.exec, hp, h,
      thread_id_to_u32]
  · intro h
    simp only [SelfProfilerRef.query_cache_hit,
      SelfProfilerRef.instant_query_event, SelfProfilerRef.exec,
      thread_id_to_u32, h]

/-- Claim C10, witness: thread ids `2 ^ 32 + 5` and `5` agree modulo `2 ^ 32`
and produce the same truncated identifier, the same recorded interval, and
the same recorded cache-hit instant; the instant for invocation 42 on thread
5 carries thread id `5 % 2 ^ 32`. -/
theorem C10_witness :
    (thread_id_to_u32 4294967301 = thread_id_to_u32 5)
  ∧ (TimingGuard.start allSessionProfiler (StringId.concrete 0)
       EventId.invalid 4294967301 =
     TimingGuard.start allSessionProfiler (StringId.concrete 0)
       EventId.invalid 5)
  ∧ (allSessionRef.query_cache_hit 42 4294967301 =
       allSessionRef.query_cache_hit 42 5)
  ∧ (allSessionRef.query_cache_hit 42 5 =
       some { allSessionRef with profiler := some { allSessionProfiler with
           profiler := (allSessionProfiler.profiler.record
             (SinkCall.recordInstant
               allSessionProfiler.query_cache_hit_event_kind
               (EventId.fromVirtual (StringId.new_virtual 42))
               (5 % 2 ^ 32))) } }) :=
  ⟨(C10_thread_id_truncated 0 4294967301 5 allSessionProfiler
      (StringId.concrete 0) EventId.invalid allSessionRef 42).2.1 (by decide),
   (C10_thread_id_truncated 0 4294967301 5 allSessionProfiler
      (StringId.concrete 0) EventId.invalid allSessionRef 42).2.2.2.2.1
     (by decide),
   (C10_thread_id_truncated 0 4294967301 5 allSessionProfiler
      (StringId.concrete 0) EventId.invalid allSessionRef 42).2.2.2.2.2.2
     (by decide),
   (C10_thread_id_truncated 5 4294967301 5 allSessionProfiler
      (StringId.concrete 0) EventId.invalid allSessionRef 42).2.2.2.2.2.1
     rfl (by decide)⟩

end Profiling
